import Mathlib

/-!
Verification of the ALFY-BOT trading system: the orchestration /
position-lifecycle engine described by the specification, and the
mobile-app React Native screens present in the repository.

The backend engine (Risk Guard, Scan Aggregator, Decision Oracle Adapter,
Position Monitor, Reverse Strategy Engine, Position Store) is not shipped
in this snapshot of the repository — only its documentation and the mobile
client are — so those components are modelled from the specification text,
flagged `Modelled from the spec:` on each definition.  The mobile-app
functions (`login` of `AuthContext.js`, `toggleSymbol` of
`SettingsScreen.js`) are embedded directly from the JavaScript source.

Prices, sizes and percentages are modelled as rationals (`ℚ`); counts as
naturals.
-/

namespace AlfyBot

/-- Trade direction of a `TradeIntent` (LONG / SHORT / NONE). -/
inductive Direction where
  | long
  | short
  | none
deriving DecidableEq, Repr

/-- Side of an open position. -/
inductive Side where
  | long
  | short
deriving DecidableEq, Repr

/-- The opposite side, used by the reverse strategy. -/
def Side.opposite : Side → Side
  | .long => .short
  | .short => .long

/-- The direction that opens a position of the given side. -/
def Side.toDirection : Side → Direction
  | .long => .long
  | .short => .short

/-- Modelled from the spec: trailing-stop sub-state of a Position
(`{inactive, armed(price), trailing(current_stop)}`, §3 Data Model). -/
inductive TrailState where
  | inactive
  | armed (stop : ℚ)
  | trailing (stop : ℚ)
deriving DecidableEq, Repr

/-- Modelled from the spec: an open Position record of the Position Store
(§3 Data Model).  The `reversing` flag is the reverse state
`{none, reversing}`. -/
structure Position where
  symbol : String
  side : Side
  entry : ℚ
  size : ℚ
  leverage : ℚ
  openedAt : Nat
  trail : TrailState
  reversing : Bool
deriving DecidableEq, Repr

/-- Modelled from the spec: process-wide risk limits (§3 Data Model). -/
structure RiskLimits where
  max_positions : Nat
  max_leverage : ℚ
  max_size_pct : ℚ
deriving DecidableEq, Repr

/-- Modelled from the spec: a trade intent produced by the Decision Oracle
Adapter (§3 Data Model). -/
structure TradeIntent where
  symbol : String
  direction : Direction
  confidence : ℚ
  leverage : ℚ
  size_pct : ℚ
  rationale : String
deriving DecidableEq, Repr

/-- Outcome of a Risk Guard admission check:
`approved adjustedSize` or `rejected reason`. -/
inductive AdmitResult where
  | approved (adjustedSize : ℚ)
  | rejected (reason : String)
deriving DecidableEq, Repr

/-- Holds `true` exactly on the `approved` outcome. -/
def AdmitResult.isApproved : AdmitResult → Bool
  | .approved _ => true
  | .rejected _ => false

/-- Modelled from the spec: the Risk Guard admission function (§4.4), absent
from `src/`.  `admit(intent, currentPositions, limits)`: hard-rejects when
the open-position count is at or above `max_positions` or the requested
leverage exceeds `max_leverage`; a size fraction above `max_size_pct` is
clamped down to the cap rather than rejected. -/
def admission (intent : TradeIntent) (currentPositions : List Position)
    (limits : RiskLimits) : AdmitResult :=
  if limits.max_positions ≤ currentPositions.length then
    .rejected "max_positions"
  else if limits.max_leverage < intent.leverage then
    .rejected "max_leverage"
  else
    .approved (min intent.size_pct limits.max_size_pct)

end AlfyBot

namespace AlfyBot

/-- Modelled from the spec: a per-symbol verdict returned by the Decision
Oracle capability (§6 External Interfaces). -/
structure Verdict where
  symbol : String
  direction : Direction
  confidence : ℚ
  leverage : ℚ
  size_pct : ℚ
  rationale : String
deriving DecidableEq, Repr

/-- Modelled from the spec: the Decision Oracle Adapter's local validation
(§4.3), absent from `src/`: confidence below the configured minimum is
coerced to `direction = NONE` regardless of the oracle's stated
direction. -/
def parseVerdict (min_confidence : ℚ) (v : Verdict) : TradeIntent :=
  { symbol := v.symbol
    direction := if v.confidence < min_confidence then .none else v.direction
    confidence := v.confidence
    leverage := v.leverage
    size_pct := v.size_pct
    rationale := v.rationale }

/-- Modelled from the spec: one analysis-agent result for one symbol in one
scan cycle (§3 Data Model); the payload is opaque here, only the
success/failure flag matters to the merge policy. -/
structure AnalysisResult where
  agent : String
  symbol : String
  timestamp : Nat
  success : Bool
deriving DecidableEq, Repr

/-- Modelled from the spec: the merged analysis bundle for one symbol in one
cycle (§3 Data Model). -/
structure AnalysisBundle where
  symbol : String
  results : List AnalysisResult
deriving DecidableEq, Repr

/-- A symbol is eligible when at least one agent succeeded for it (§4.2). -/
def eligible (results : List AnalysisResult) (s : String) : Bool :=
  results.any (fun r => r.symbol = s && r.success)

/-- Modelled from the spec: the Scan Aggregator merge (§4.2), absent from
`src/`.  Per candidate symbol it collects all `AnalysisResult`s; a bundle
is emitted only if at least one agent succeeded; the output is one bundle
per eligible symbol, in symbol-name order for determinism. -/
def aggregate (candidates : List String) (results : List AnalysisResult) :
    List AnalysisBundle :=
  (((candidates.insertionSort (· ≤ ·)).filter (eligible results)).map
    (fun s => { symbol := s, results := results.filter (fun r => r.symbol = s) }))

/-- Modelled from the spec: the Decision Oracle Adapter cycle step (§4.3),
absent from `src/`.  The oracle is called once with the whole batch; if the
call fails entirely, every symbol's intent for the cycle defaults to NONE.
When it succeeds, the verdict for a bundle's symbol is parsed (a symbol the
oracle did not answer for also defaults to NONE). -/
def decideCycle (min_confidence : ℚ) (bundles : List AnalysisBundle)
    (oracle : Except String (List Verdict)) : List TradeIntent :=
  match oracle with
  | .error _ =>
      bundles.map (fun b =>
        { symbol := b.symbol, direction := .none, confidence := 0
          leverage := 0, size_pct := 0, rationale := "oracle call failed" })
  | .ok verdicts =>
      bundles.map (fun b =>
        match verdicts.find? (fun v => v.symbol = b.symbol) with
        | some v => parseVerdict min_confidence v
        | none =>
            { symbol := b.symbol, direction := .none, confidence := 0
              leverage := 0, size_pct := 0, rationale := "no verdict" })

/-- A fresh position opened from an admitted intent at a given entry price
and time, with the Risk Guard's adjusted size. -/
def openedPosition (intent : TradeIntent) (side : Side) (adjustedSize : ℚ)
    (entry : ℚ) (now : Nat) : Position :=
  { symbol := intent.symbol, side := side, entry := entry
    size := adjustedSize, leverage := intent.leverage, openedAt := now
    trail := .inactive, reversing := false }

/-- Modelled from the spec: the execution step of a scan cycle (§2 data
flow), absent from `src/`.  Each intent with a LONG/SHORT direction is
submitted to the Risk Guard (counting one guard evaluation) and, if
admitted, a position is opened; NONE intents are discarded without any
Risk Guard evaluation.  Returns the opened positions and the number of
Risk Guard evaluations performed. -/
def executeIntents (limits : RiskLimits) (currentPositions : List Position)
    (entry : ℚ) (now : Nat) :
    List TradeIntent → List Position × Nat
  | [] => (currentPositions, 0)
  | intent :: rest =>
      match intent.direction with
      | .none => executeIntents limits currentPositions entry now rest
      | .long =>
          let next :=
            match admission intent currentPositions limits with
            | .approved sz =>
                openedPosition intent .long sz entry now :: currentPositions
            | .rejected _ => currentPositions
          let (ps, n) := executeIntents limits next entry now rest
          (ps, n + 1)
      | .short =>
          let next :=
            match admission intent currentPositions limits with
            | .approved sz =>
                openedPosition intent .short sz entry now :: currentPositions
            | .rejected _ => currentPositions
          let (ps, n) := executeIntents limits next entry now rest
          (ps, n + 1)

/-! ### Position Store

Modelled from the spec (§3, §5, §9): the process-wide authoritative view of
open positions, indexed by symbol, single owner of mutation rights.  Every
mutation (scan-open, close, reverse-reopen) is serialized by the per-symbol
and global locking the spec mandates, so a concurrent execution is an
arbitrary interleaving — an arbitrary sequence — of the atomic store
operations below. -/

/-- The Position Store's contents: the list of open position records. -/
abbrev PositionStore := List Position

/-- Look up the open position for a symbol, if any. -/
def lookupPos (store : PositionStore) (s : String) : Option Position :=
  store.find? (fun p => p.symbol = s)

/-- Modelled from the spec: opening a position in the store.  The store's
compare-and-swap per symbol admits the insert only when the symbol is
currently flat; a concurrent attempt that lost the race leaves the store
unchanged. -/
def storeOpen (store : PositionStore) (p : Position) : PositionStore :=
  match lookupPos store p.symbol with
  | some _ => store
  | none => p :: store

/-- Modelled from the spec: closing a position removes the symbol's record;
absence of a record always means flat. -/
def storeClose (store : PositionStore) (s : String) : PositionStore :=
  store.filter (fun p => p.symbol ≠ s)

/-- Modelled from the spec: the per-symbol `set` accessor of the Position
Store (§9): a monitor mutation (trailing-stop update, reverse transition)
rewrites the record's non-key fields; the symbol is the immutable key. -/
def storeUpdate (store : PositionStore) (s : String)
    (f : Position → Position) : PositionStore :=
  store.map (fun p =>
    if p.symbol = s then { f p with symbol := p.symbol } else p)

/-- An atomic Position Store mutation: a scan-open or reverse-reopen attempt,
a close, or a per-symbol monitor update. -/
inductive StoreOp where
  | openOp (p : Position)
  | closeOp (s : String)
  | updateOp (s : String) (f : Position → Position)

/-- Apply one atomic store operation. -/
def applyOp (store : PositionStore) : StoreOp → PositionStore
  | .openOp p => storeOpen store p
  | .closeOp s => storeClose store s
  | .updateOp s f => storeUpdate store s f

/-- Apply a serialized sequence of store operations (an arbitrary
interleaving of concurrent scan-open, reverse-reopen and close attempts). -/
def applyOps (store : PositionStore) (ops : List StoreOp) : PositionStore :=
  ops.foldl applyOp store

/-- The Position Store invariant: at most one open Position per symbol. -/
def uniquePerSymbol (store : PositionStore) : Prop :=
  store.Pairwise (fun p q => p.symbol ≠ q.symbol)

/-! ### Position Monitor: trailing stop -/

/-- Modelled from the spec: trailing-stop configuration
(`trailing_activation_pct`, `trailing_callback_pct`, §6). -/
structure TrailConfig where
  activation_pct : ℚ
  callback_pct : ℚ
deriving DecidableEq, Repr

/-- Unrealized PnL percent of a position at a mark price (§4.5). -/
def pnlPct (side : Side) (entry mark : ℚ) : ℚ :=
  match side with
  | .long => (mark - entry) / entry * 100
  | .short => (entry - mark) / entry * 100

/-- Modelled from the spec: the stop price the callback percent places at the
current mark — below the mark for a LONG, above it for a SHORT (§4.5). -/
def candidateStop (side : Side) (cfg : TrailConfig) (mark : ℚ) : ℚ :=
  match side with
  | .long => mark * (1 - cfg.callback_pct / 100)
  | .short => mark * (1 + cfg.callback_pct / 100)

/-- Ratchet the stop only in the favorable direction: up for a LONG, down for
a SHORT; it never loosens (§4.5). -/
def ratchet (side : Side) (stop cand : ℚ) : ℚ :=
  match side with
  | .long => max stop cand
  | .short => min stop cand

/-- Modelled from the spec: one monitor-tick update of the trailing-stop
state machine (§4.5), absent from `src/`.  `inactive` arms when PnL%
crosses the activation threshold; `armed`/`trailing` ratchet the stop only
in the favorable direction by the callback percent. -/
def trailingTick (side : Side) (cfg : TrailConfig) (entry : ℚ)
    (ts : TrailState) (mark : ℚ) : TrailState :=
  match ts with
  | .inactive =>
      if cfg.activation_pct ≤ pnlPct side entry mark then
        .armed (candidateStop side cfg mark)
      else
        .inactive
  | .armed stop => .trailing (ratchet side stop (candidateStop side cfg mark))
  | .trailing stop => .trailing (ratchet side stop (candidateStop side cfg mark))

/-- The stop price carried by a trailing-stop state, when armed or
trailing. -/
def stopOf : TrailState → Option ℚ
  | .inactive => Option.none
  | .armed stop => some stop
  | .trailing stop => some stop

/-- A sequence of monitor ticks over a sequence of observed mark prices. -/
def trailingTicks (side : Side) (cfg : TrailConfig) (entry : ℚ)
    (ts : TrailState) (marks : List ℚ) : TrailState :=
  marks.foldl (trailingTick side cfg entry) ts

/-! ### Reverse Strategy Engine -/

/-- Modelled from the spec: reverse-strategy configuration
(`reverse_loss_threshold_pct`, `reverse_recovery_multiplier`, §6). -/
structure ReverseConfig where
  loss_threshold_pct : ℚ
  recovery_multiplier : ℚ
deriving DecidableEq, Repr

/-- Modelled from the spec: the audit record created when the Reverse
Strategy Engine fires (§3 Data Model). -/
structure ReverseEvent where
  symbol : String
  original_side : Side
  loss_pct : ℚ
  new_side : Side
  new_size : ℚ
  timestamp : Nat
deriving DecidableEq, Repr

/-- Outcome of one fallible external step (close / open via the Exchange
Gateway): confirmed or failed. -/
inductive StepResult where
  | ok
  | failed
deriving DecidableEq, Repr

/-- The engine's per-symbol view: the open position for the symbol, if any,
and the `reversing` marker of the per-symbol state machine
`none → reversing → none` (§4.6). -/
structure SymbolState where
  position : Option Position
  reversing : Bool
deriving DecidableEq, Repr

/-- Result of one Reverse Strategy Engine invocation: the final per-symbol
state and the `ReverseEvent`s written to the audit sink. -/
structure ReverseResult where
  state : SymbolState
  events : List ReverseEvent
deriving DecidableEq, Repr

/-- The opposite-direction intent the engine submits to the Risk Guard:
opposite side, size = original size × recovery multiplier (§4.6 step 3). -/
def reverseIntent (cfg : ReverseConfig) (pos : Position) : TradeIntent :=
  { symbol := pos.symbol
    direction := pos.side.opposite.toDirection
    confidence := 100
    leverage := pos.leverage
    size_pct := pos.size * cfg.recovery_multiplier
    rationale := "reverse recovery" }

/-- Steps 2–6 of the engine, run with the `reversing` marker set.
`closeRes`/`openRes` are the outcomes of the two Exchange Gateway calls,
so quantifying over them covers every fault-injection pattern. -/
def reverseSteps (cfg : ReverseConfig) (limits : RiskLimits)
    (otherPositions : List Position) (pos : Position) (lossPct : ℚ)
    (now : Nat) (closeRes openRes : StepResult) (newEntry : ℚ) :
    ReverseResult :=
  match closeRes with
  | .failed =>
      -- Close failed: position state is left as last-known-confirmed
      -- (§7); the marker is cleared (§4.6 step 6).
      { state := { position := some pos, reversing := false }, events := [] }
  | .ok =>
      let intent := reverseIntent cfg pos
      let event : ReverseEvent :=
        { symbol := pos.symbol, original_side := pos.side
          loss_pct := lossPct, new_side := pos.side.opposite
          new_size := pos.size * cfg.recovery_multiplier, timestamp := now }
      match admission intent otherPositions limits with
      | .rejected _ =>
          -- Not admitted: symbol left flat, aborted reversal recorded,
          -- marker cleared.
          { state := { position := Option.none, reversing := false }
            events := [event] }
      | .approved adjustedSize =>
          match openRes with
          | .failed =>
              -- Reopen failed: the system prefers ending flat; marker
              -- cleared.
              { state := { position := Option.none, reversing := false }
                events := [] }
          | .ok =>
              { state :=
                  { position := some (openedPosition intent pos.side.opposite
                      adjustedSize newEntry now)
                    reversing := false }
                events := [event] }

/-- Modelled from the spec: one full Reverse Strategy Engine invocation
(§4.6), absent from `src/`.  Step 1 marks the symbol `reversing` to block
re-entrant triggers; steps 2–6 then run on the marked state and must clear
the marker in every outcome. -/
def reverseInvoke (cfg : ReverseConfig) (limits : RiskLimits)
    (otherPositions : List Position) (pos : Position) (lossPct : ℚ)
    (now : Nat) (closeRes openRes : StepResult) (newEntry : ℚ) :
    ReverseResult :=
  let marked : SymbolState := { position := some pos, reversing := true }
  match marked.reversing with
  | true => reverseSteps cfg limits otherPositions pos lossPct now
      closeRes openRes newEntry
  | false => { state := marked, events := [] }

/-! ### Mobile app: `AuthContext.js` -/

/-- The user record returned by the backend `/me` endpoint, as consumed by
`AuthContext.js`. -/
structure UserData where
  username : String
  email : String
deriving DecidableEq, Repr

/-- A rejected axios promise, keeping the only part `AuthContext.js` reads:
`error.response?.data?.detail` (absent when any link of the optional chain
is missing). -/
structure ApiError where
  responseDataDetail : Option String
deriving DecidableEq, Repr

/-- The auth provider's React state: the `user` and `isAuthenticated`
`useState` cells of `AuthContext.js`. -/
structure AuthState where
  user : Option UserData
  isAuthenticated : Bool
deriving DecidableEq, Repr

/-- The object `login` resolves to: `{success: true}` or
`{success: false, error: ...}` (`AuthContext.js` lines 38 and 40–43). -/
structure LoginOutcome where
  success : Bool
  error : Option String
deriving DecidableEq, Repr

/-- JavaScript `error.response?.data?.detail || fallback`: the detail when
it is present and truthy (a non-empty string), the fallback otherwise. -/
def errorDetailOr (e : ApiError) (fallback : String) : String :=
  match e.responseDataDetail with
  | some d => if d = "" then fallback else d
  | Option.none => fallback

/-- The `login` function of `AuthContext.js` (lines 32–45).  The two awaited
backend calls are passed as their outcomes; `ok` carries the resolved
value, `error` a rejected promise.  Returns the resolved object and the
provider state after the call. -/
def login (loginRequest : Except ApiError String)
    (getMeRequest : Except ApiError UserData) (st : AuthState) :
    LoginOutcome × AuthState :=
  match loginRequest with
  | .error e =>
      ({ success := false, error := some (errorDetailOr e "Login failed") }, st)
  | .ok _token =>
      match getMeRequest with
      | .error e =>
          ({ success := false, error := some (errorDetailOr e "Login failed") },
           st)
      | .ok userData =>
          ({ success := true, error := Option.none },
           { user := some userData, isAuthenticated := true })

/-! ### Mobile app: `SettingsScreen.js` -/

/-- The `toggleSymbol` handler of `SettingsScreen.js` (lines 37–43): if the
symbol is already selected, keep only the entries different from it;
otherwise append it. -/
def toggleSymbol (selectedSymbols : List String) (symbol : String) :
    List String :=
  if symbol ∈ selectedSymbols then
    selectedSymbols.filter (fun s => s ≠ symbol)
  else
    selectedSymbols ++ [symbol]

/-! ## Theorems -/

/-- C1: the Risk Guard hard-rejects when the open-position count is at or
above `max_positions` or the requested leverage exceeds `max_leverage`;
when only the requested size fraction exceeds `max_size_pct` it approves
with the size clamped down to the cap; consequently every admitted open
leaves the open-position count at most `max_positions`. -/
theorem riskGuard_admission_spec (intent : TradeIntent)
    (currentPositions : List Position) (limits : RiskLimits) :
    (limits.max_positions ≤ currentPositions.length →
      admission intent currentPositions limits = .rejected "max_positions") ∧
    (currentPositions.length < limits.max_positions →
      limits.max_leverage < intent.leverage →
      admission intent currentPositions limits = .rejected "max_leverage") ∧
    (currentPositions.length < limits.max_positions →
      intent.leverage ≤ limits.max_leverage →
      limits.max_size_pct < intent.size_pct →
      admission intent currentPositions limits =
        .approved limits.max_size_pct) ∧
    (∀ adjustedSize,
      admission intent currentPositions limits = .approved adjustedSize →
      currentPositions.length + 1 ≤ limits.max_positions) := by
  refine ⟨?_, ?_, ?_, ?_⟩
  · intro h
    simp [admission, h]
  · intro h1 h2
    simp [admission, not_le.mpr h1, h2]
  · intro h1 h2 h3
    simp [admission, not_le.mpr h1, not_lt.mpr h2, min_eq_right h3.le]
  · intro adjustedSize h
    by_contra hc
    have hle : limits.max_positions ≤ currentPositions.length := by omega
    simp [admission, hle] at h

/-- Witness for C1: with `max_positions = 3`, `max_leverage = 10`,
`max_size_pct = 3/10`, two open positions, and an intent with leverage 5
and size fraction 1/2, the guard approves with the size clamped to 3/10,
and the count after the open is at most 3. -/
theorem riskGuard_admission_spec_witness :
    (admission
        { symbol := "BTCUSDT", direction := .long, confidence := 80
          leverage := 5, size_pct := 1/2, rationale := "w" }
        [{ symbol := "ETHUSDT", side := .long, entry := 3000, size := 50
           leverage := 3, openedAt := 0, trail := .inactive
           reversing := false },
         { symbol := "SOLUSDT", side := .short, entry := 150, size := 40
           leverage := 2, openedAt := 0, trail := .inactive
           reversing := false }]
        { max_positions := 3, max_leverage := 10, max_size_pct := 3/10 } =
      .approved (3/10)) ∧
    (2 + 1 ≤ 3) := by
  refine ⟨(riskGuard_admission_spec _ _ _).2.2.1 (by norm_num) (by norm_num)
    (by norm_num), ?_⟩
  exact (riskGuard_admission_spec
    { symbol := "BTCUSDT", direction := .long, confidence := 80
      leverage := 5, size_pct := 1/2, rationale := "w" }
    [{ symbol := "ETHUSDT", side := .long, entry := 3000, size := 50
       leverage := 3, openedAt := 0, trail := .inactive, reversing := false },
     { symbol := "SOLUSDT", side := .short, entry := 150, size := 40
       leverage := 2, openedAt := 0, trail := .inactive, reversing := false }]
    { max_positions := 3, max_leverage := 10, max_size_pct := 3/10 }).2.2.2
    (3/10)
    ((riskGuard_admission_spec _ _ _).2.2.1 (by norm_num) (by norm_num)
      (by norm_num))

/-- C6: a `TradeIntent` whose confidence is below the configured minimum has
its direction coerced to NONE by the Decision Oracle Adapter, regardless of
the direction stated in the oracle's verdict. -/
theorem low_confidence_coerced_to_none (min_confidence : ℚ) (v : Verdict)
    (h : v.confidence < min_confidence) :
    (parseVerdict min_confidence v).direction = .none := by
  simp [parseVerdict, h]

/-- Witness for C6: a verdict stating LONG with confidence 30 against a
minimum of 60 is coerced to NONE. -/
theorem low_confidence_coerced_to_none_witness :
    (parseVerdict 60
        { symbol := "BTCUSDT", direction := .long, confidence := 30
          leverage := 5, size_pct := 1/10, rationale := "w" }).direction =
      .none :=
  low_confidence_coerced_to_none 60
    { symbol := "BTCUSDT", direction := .long, confidence := 30
      leverage := 5, size_pct := 1/10, rationale := "w" } (by decide)

/-- C3: the `reversing` marker set at the start of a Reverse Strategy Engine
invocation is cleared by the end of that same invocation in every outcome —
for every combination of close and reopen step outcomes and every Risk
Guard verdict, the final per-symbol state is not `reversing`. -/
theorem reversing_marker_always_cleared (cfg : ReverseConfig)
    (limits : RiskLimits) (otherPositions : List Position) (pos : Position)
    (lossPct : ℚ) (now : Nat) (closeRes openRes : StepResult)
    (newEntry : ℚ) :
    (reverseInvoke cfg limits otherPositions pos lossPct now closeRes
        openRes newEntry).state.reversing = false := by
  cases closeRes <;> cases openRes <;>
    simp only [reverseInvoke, reverseSteps] <;>
    rcases admission (reverseIntent cfg pos) otherPositions limits with sz | r
      <;> rfl

/-- C5: when the reverse engine's close is confirmed and the Risk Guard
admits the opposite-direction open unclamped and the reopen succeeds, the
new position has the opposite side and size equal to the original size
times the recovery multiplier; the requested size before any clamp is the
original size times the multiplier; and the recorded `ReverseEvent`
carries the loss percentage at trigger, the new side and the new size. -/
theorem reverse_opens_opposite_with_multiplied_size (cfg : ReverseConfig)
    (limits : RiskLimits) (otherPositions : List Position) (pos : Position)
    (lossPct : ℚ) (now : Nat) (newEntry : ℚ)
    (hadm : admission (reverseIntent cfg pos) otherPositions limits =
      .approved (pos.size * cfg.recovery_multiplier)) :
    (reverseIntent cfg pos).size_pct = pos.size * cfg.recovery_multiplier ∧
    (reverseIntent cfg pos).direction = pos.side.opposite.toDirection ∧
    ∃ newPos,
      (reverseInvoke cfg limits otherPositions pos lossPct now .ok .ok
          newEntry).state.position = some newPos ∧
      newPos.side = pos.side.opposite ∧
      newPos.size = pos.size * cfg.recovery_multiplier ∧
      (reverseInvoke cfg limits otherPositions pos lossPct now .ok .ok
          newEntry).events =
        [{ symbol := pos.symbol, original_side := pos.side
           loss_pct := lossPct, new_side := pos.side.opposite
           new_size := pos.size * cfg.recovery_multiplier
           timestamp := now }] := by
  refine ⟨rfl, rfl,
    openedPosition (reverseIntent cfg pos) pos.side.opposite
      (pos.size * cfg.recovery_multiplier) newEntry now, ?_, rfl, rfl, ?_⟩
  · simp [reverseInvoke, reverseSteps, hadm]
  · simp [reverseInvoke, reverseSteps, hadm]

/-- Witness for C5: the BTCUSDT scenario — a losing LONG of size 100 at
entry 65000, recovery multiplier 3/2, loss 21/10 percent — reopens as a
SHORT of size 100 × 3/2 = 150 and records the matching ReverseEvent. -/
theorem reverse_opens_opposite_witness :
    ∃ newPos,
      (reverseInvoke { loss_threshold_pct := 2, recovery_multiplier := 3/2 }
          { max_positions := 5, max_leverage := 10, max_size_pct := 1000 }
          []
          { symbol := "BTCUSDT", side := .long, entry := 65000, size := 100
            leverage := 5, openedAt := 0, trail := .inactive
            reversing := false }
          (21/10) 1 .ok .ok 63635).state.position = some newPos ∧
      newPos.side = Side.long.opposite ∧
      newPos.size = 100 * (3/2) ∧
      (reverseInvoke { loss_threshold_pct := 2, recovery_multiplier := 3/2 }
          { max_positions := 5, max_leverage := 10, max_size_pct := 1000 }
          []
          { symbol := "BTCUSDT", side := .long, entry := 65000, size := 100
            leverage := 5, openedAt := 0, trail := .inactive
            reversing := false }
          (21/10) 1 .ok .ok 63635).events =
        [{ symbol := "BTCUSDT", original_side := .long, loss_pct := 21/10
           new_side := Side.long.opposite, new_size := 100 * (3/2)
           timestamp := 1 }] :=
  (reverse_opens_opposite_with_multiplied_size
    { loss_threshold_pct := 2, recovery_multiplier := 3/2 }
    { max_positions := 5, max_leverage := 10, max_size_pct := 1000 } []
    { symbol := "BTCUSDT", side := .long, entry := 65000, size := 100
      leverage := 5, openedAt := 0, trail := .inactive, reversing := false }
    (21/10) 1 63635
    (by norm_num [admission, reverseIntent])).2.2

/-- Helper for C7: executing a cycle whose intents are all NONE opens no
position and never evaluates the Risk Guard. -/
theorem executeIntents_all_none (limits : RiskLimits)
    (currentPositions : List Position) (entry : ℚ) (now : Nat)
    (intents : List TradeIntent)
    (h : ∀ i ∈ intents, i.direction = Direction.none) :
    executeIntents limits currentPositions entry now intents =
      (currentPositions, 0) := by
  induction intents with
  | nil => rfl
  | cons i rest ih =>
      have hi : i.direction = Direction.none := h i (List.mem_cons_self i rest)
      simp only [executeIntents, hi]
      exact ih (fun j hj => h j (List.mem_cons_of_mem i hj))

/-- C7: when the Decision Oracle call fails entirely, every symbol's intent
for the cycle is NONE, zero position opens are executed, and the Risk
Guard is never evaluated in that cycle. -/
theorem oracle_failure_fail_safe (min_confidence : ℚ)
    (bundles : List AnalysisBundle) (err : String) (limits : RiskLimits)
    (currentPositions : List Position) (entry : ℚ) (now : Nat) :
    (∀ i ∈ decideCycle min_confidence bundles (.error err),
      i.direction = Direction.none) ∧
    executeIntents limits currentPositions entry now
        (decideCycle min_confidence bundles (.error err)) =
      (currentPositions, 0) := by
  have hall : ∀ i ∈ decideCycle min_confidence bundles (.error err),
      i.direction = Direction.none := by
    intro i hi
    simp only [decideCycle, List.mem_map] at hi
    obtain ⟨b, _, rfl⟩ := hi
    rfl
  exact ⟨hall, executeIntents_all_none _ _ _ _ _ hall⟩

/-- Witness for C7: an oracle failure over a cycle with three eligible
bundles produces NONE for all of them, opens nothing from an empty
position set, and performs zero Risk Guard evaluations. -/
theorem oracle_failure_fail_safe_witness :
    (∀ i ∈ decideCycle 60
        [{ symbol := "BTCUSDT", results := [] },
         { symbol := "ETHUSDT", results := [] },
         { symbol := "SOLUSDT", results := [] }]
        (.error "connection refused"),
      i.direction = Direction.none) ∧
    executeIntents { max_positions := 5, max_leverage := 10
                     max_size_pct := 3/10 } [] 100 0
        (decideCycle 60
          [{ symbol := "BTCUSDT", results := [] },
           { symbol := "ETHUSDT", results := [] },
           { symbol := "SOLUSDT", results := [] }]
          (.error "connection refused")) =
      ([], 0) :=
  oracle_failure_fail_safe 60
    [{ symbol := "BTCUSDT", results := [] },
     { symbol := "ETHUSDT", results := [] },
     { symbol := "SOLUSDT", results := [] }]
    "connection refused"
    { max_positions := 5, max_leverage := 10, max_size_pct := 3/10 }
    [] 100 0

/-- Helper for C8: the symbols of the aggregator's output are exactly the
eligible candidates, sorted. -/
theorem aggregate_map_symbol (candidates : List String)
    (results : List AnalysisResult) :
    (aggregate candidates results).map AnalysisBundle.symbol =
      (candidates.insertionSort (· ≤ ·)).filter (eligible results) := by
  have hcomp : (AnalysisBundle.symbol ∘ fun s =>
      ({ symbol := s, results := results.filter (fun r => r.symbol = s) } :
        AnalysisBundle)) = id := rfl
  rw [aggregate, List.map_map, hcomp, List.map_id]

/-- C8: the Scan Aggregator emits one bundle per candidate symbol with at
least one successful agent result — its output symbols are duplicate-free
and a candidate appears exactly when it is eligible — no bundle for any
symbol with zero successes, and the output is in symbol-name order. -/
theorem aggregator_one_bundle_per_eligible_symbol (candidates : List String)
    (results : List AnalysisResult) (hnd : candidates.Nodup) :
    List.Sorted (· ≤ ·)
      ((aggregate candidates results).map AnalysisBundle.symbol) ∧
    ((aggregate candidates results).map AnalysisBundle.symbol).Nodup ∧
    (∀ s ∈ candidates, (eligible results s = true ↔
      s ∈ (aggregate candidates results).map AnalysisBundle.symbol)) ∧
    (∀ b ∈ aggregate candidates results, eligible results b.symbol = true) := by
  refine ⟨?_, ?_, ?_, ?_⟩
  · rw [aggregate_map_symbol]
    exact List.Pairwise.sublist (List.filter_sublist _)
      (List.sorted_insertionSort _ _)
  · rw [aggregate_map_symbol]
    exact List.Nodup.filter _
      ((candidates.perm_insertionSort (· ≤ ·)).nodup_iff.mpr hnd)
  · intro s hs
    rw [aggregate_map_symbol]
    simp [List.mem_filter, List.mem_insertionSort, hs]
  · intro b hb
    simp only [aggregate, List.mem_map] at hb
    obtain ⟨s, hsf, rfl⟩ := hb
    exact (List.mem_filter.mp hsf).2

/-- Witness for C8: with candidates BTCUSDT, ETHUSDT, SOLUSDT — where only
ETHUSDT has zero successful agent results — the output has exactly the
other two symbols, sorted and duplicate-free. -/
theorem aggregator_one_bundle_witness :
    List.Sorted (· ≤ ·)
      ((aggregate ["SOLUSDT", "BTCUSDT", "ETHUSDT"]
          [{ agent := "technical", symbol := "BTCUSDT", timestamp := 0
             success := true },
           { agent := "fibonacci", symbol := "ETHUSDT", timestamp := 0
             success := false },
           { agent := "gann", symbol := "SOLUSDT", timestamp := 0
             success := true }]).map AnalysisBundle.symbol) ∧
    ((aggregate ["SOLUSDT", "BTCUSDT", "ETHUSDT"]
        [{ agent := "technical", symbol := "BTCUSDT", timestamp := 0
           success := true },
         { agent := "fibonacci", symbol := "ETHUSDT", timestamp := 0
           success := false },
         { agent := "gann", symbol := "SOLUSDT", timestamp := 0
           success := true }]).map AnalysisBundle.symbol).Nodup ∧
    (∀ s ∈ ["SOLUSDT", "BTCUSDT", "ETHUSDT"],
      (eligible
          [{ agent := "technical", symbol := "BTCUSDT", timestamp := 0
             success := true },
           { agent := "fibonacci", symbol := "ETHUSDT", timestamp := 0
             success := false },
           { agent := "gann", symbol := "SOLUSDT", timestamp := 0
             success := true }] s = true ↔
        s ∈ (aggregate ["SOLUSDT", "BTCUSDT", "ETHUSDT"]
            [{ agent := "technical", symbol := "BTCUSDT", timestamp := 0
               success := true },
             { agent := "fibonacci", symbol := "ETHUSDT", timestamp := 0
               success := false },
             { agent := "gann", symbol := "SOLUSDT", timestamp := 0
               success := true }]).map AnalysisBundle.symbol)) ∧
    (∀ b ∈ aggregate ["SOLUSDT", "BTCUSDT", "ETHUSDT"]
        [{ agent := "technical", symbol := "BTCUSDT", timestamp := 0
           success := true },
         { agent := "fibonacci", symbol := "ETHUSDT", timestamp := 0
           success := false },
         { agent := "gann", symbol := "SOLUSDT", timestamp := 0
           success := true }],
      eligible
        [{ agent := "technical", symbol := "BTCUSDT", timestamp := 0
           success := true },
         { agent := "fibonacci", symbol := "ETHUSDT", timestamp := 0
           success := false },
         { agent := "gann", symbol := "SOLUSDT", timestamp := 0
           success := true }] b.symbol = true) :=
  aggregator_one_bundle_per_eligible_symbol
    ["SOLUSDT", "BTCUSDT", "ETHUSDT"]
    [{ agent := "technical", symbol := "BTCUSDT", timestamp := 0
       success := true },
     { agent := "fibonacci", symbol := "ETHUSDT", timestamp := 0
       success := false },
     { agent := "gann", symbol := "SOLUSDT", timestamp := 0
       success := true }] (by decide)

/-- Helper for C9: the error message built from a rejected request is never
the empty string (JavaScript `||` replaces a falsy detail with the
non-empty fallback). -/
theorem errorDetailOr_login_ne_empty (e : ApiError) :
    errorDetailOr e "Login failed" ≠ "" := by
  unfold errorDetailOr
  rcases e.responseDataDetail with _ | d
  · decide
  · by_cases hd : d = "" <;> simp [hd]

/-- C9: when the backend login or user-info request rejects, `login` resolves
to `success = false` with a non-empty error message, and the provider state
(`user`, `isAuthenticated`) is left unchanged. -/
theorem login_failure_is_safe (loginRequest : Except ApiError String)
    (getMeRequest : Except ApiError UserData) (st : AuthState)
    (h : loginRequest.isOk = false ∨ getMeRequest.isOk = false) :
    (login loginRequest getMeRequest st).1.success = false ∧
    (∃ msg, (login loginRequest getMeRequest st).1.error = some msg ∧
      msg ≠ "") ∧
    (login loginRequest getMeRequest st).2 = st := by
  rcases loginRequest with e | token
  · exact ⟨rfl, ⟨errorDetailOr e "Login failed", rfl,
      errorDetailOr_login_ne_empty e⟩, rfl⟩
  · rcases getMeRequest with e | userData
    · exact ⟨rfl, ⟨errorDetailOr e "Login failed", rfl,
        errorDetailOr_login_ne_empty e⟩, rfl⟩
    · rcases h with h | h <;> simp [Except.isOk, Except.toBool] at h

/-- Witness for C9: a rejected login request with detail
"Invalid credentials" on a logged-out state resolves to a failure object
with that message and leaves the state unchanged. -/
theorem login_failure_is_safe_witness :
    (login (.error { responseDataDetail := some "Invalid credentials" })
        (.ok { username := "alice", email := "a@b.c" })
        { user := Option.none, isAuthenticated := false }).1.success =
      false ∧
    (∃ msg,
      (login (.error { responseDataDetail := some "Invalid credentials" })
          (.ok { username := "alice", email := "a@b.c" })
          { user := Option.none, isAuthenticated := false }).1.error =
        some msg ∧ msg ≠ "") ∧
    (login (.error { responseDataDetail := some "Invalid credentials" })
        (.ok { username := "alice", email := "a@b.c" })
        { user := Option.none, isAuthenticated := false }).2 =
      { user := Option.none, isAuthenticated := false } :=
  login_failure_is_safe
    (.error { responseDataDetail := some "Invalid credentials" })
    (.ok { username := "alice", email := "a@b.c" })
    { user := Option.none, isAuthenticated := false } (Or.inl rfl)

/-- Membership after one `toggleSymbol` application, by cases on whether the
symbol was already selected. -/
theorem mem_toggleSymbol (l : List String) (x y : String) :
    y ∈ toggleSymbol l x ↔
      (x ∈ l ∧ y ∈ l ∧ y ≠ x) ∨ (x ∉ l ∧ (y ∈ l ∨ y = x)) := by
  by_cases hx : x ∈ l <;> simp [toggleSymbol, hx]

/-- C10: on a duplicate-free selection, toggling a symbol twice yields the
same set of selected symbols; one application appends the symbol exactly
when it is absent and removes every occurrence when it is present. -/
theorem toggleSymbol_involution (l : List String) (x : String)
    (_hnd : l.Nodup) :
    (∀ y, y ∈ toggleSymbol (toggleSymbol l x) x ↔ y ∈ l) ∧
    (x ∉ l → toggleSymbol l x = l ++ [x]) ∧
    (x ∈ l → ∀ y, y ∈ toggleSymbol l x ↔ y ∈ l ∧ y ≠ x) := by
  refine ⟨?_, ?_, ?_⟩
  · intro y
    by_cases hx : x ∈ l <;> by_cases hyx : y = x <;>
      simp only [mem_toggleSymbol, hx, hyx] <;> tauto
  · intro hx
    simp [toggleSymbol, hx]
  · intro hx y
    simp [toggleSymbol, hx, List.mem_filter]

/-- Helper for C2: the symbol of a record is untouched by a per-symbol
monitor update. -/
theorem storeUpdate_symbol (s : String) (f : Position → Position)
    (p : Position) :
    (if p.symbol = s then { f p with symbol := p.symbol } else p).symbol =
      p.symbol := by
  by_cases h : p.symbol = s <;> simp [h]

/-- Helper for C2: every atomic store operation preserves the per-symbol
uniqueness invariant. -/
theorem applyOp_uniquePerSymbol (store : PositionStore)
    (h : uniquePerSymbol store) (op : StoreOp) :
    uniquePerSymbol (applyOp store op) := by
  cases op with
  | openOp p =>
      simp only [applyOp, storeOpen]
      cases hl : lookupPos store p.symbol with
      | some q => exact h
      | none =>
          refine List.Pairwise.cons ?_ h
          intro q hq hqs
          exact List.find?_eq_none.mp hl q hq (by simp [hqs])
  | closeOp s =>
      exact List.Pairwise.sublist (List.filter_sublist store) h
  | updateOp s f =>
      simp only [applyOp, storeUpdate]
      refine List.pairwise_map.mpr (List.Pairwise.imp ?_ h)
      intro a b hab
      simpa [storeUpdate_symbol] using hab

/-- C2: at most one open Position exists per symbol at every observation
point — the invariant holds after every prefix of any serialized sequence
of store operations (any interleaving of concurrent scan-open,
reverse-reopen, close and monitor-update attempts, which the store's
per-symbol and global locking serializes). -/
theorem positionStore_at_most_one_per_symbol (store : PositionStore)
    (h : uniquePerSymbol store) (ops : List StoreOp) :
    uniquePerSymbol (applyOps store ops) := by
  induction ops generalizing store with
  | nil => exact h
  | cons op rest ih => exact ih _ (applyOp_uniquePerSymbol store h op)

/-- Witness for C2: from the empty store, a scan-open of BTCUSDT, a racing
reverse-reopen attempt for the same symbol, a monitor update, a close and
a reopen still leave at most one position per symbol. -/
theorem positionStore_at_most_one_per_symbol_witness :
    uniquePerSymbol (applyOps []
      [.openOp { symbol := "BTCUSDT", side := .long, entry := 65000
                 size := 100, leverage := 5, openedAt := 0
                 trail := .inactive, reversing := false },
       .openOp { symbol := "BTCUSDT", side := .short, entry := 64000
                 size := 150, leverage := 5, openedAt := 1
                 trail := .inactive, reversing := false },
       .updateOp "BTCUSDT" (fun p => { p with trail := .armed 64500 }),
       .closeOp "BTCUSDT",
       .openOp { symbol := "BTCUSDT", side := .short, entry := 63635
                 size := 150, leverage := 5, openedAt := 2
                 trail := .inactive, reversing := false }]) :=
  positionStore_at_most_one_per_symbol [] List.Pairwise.nil _

/-- Helper for C4: one monitor tick of an armed or trailing stop yields an
armed-or-trailing stop moved only in the position's favorable direction. -/
theorem trailingTick_stop_favorable (side : Side) (cfg : TrailConfig)
    (entry : ℚ) (ts : TrailState) (mark : ℚ) (stop : ℚ)
    (h : stopOf ts = some stop) :
    ∃ stop2, stopOf (trailingTick side cfg entry ts mark) = some stop2 ∧
      (side = .long → stop ≤ stop2) ∧ (side = .short → stop2 ≤ stop) := by
  cases ts with
  | inactive => simp [stopOf] at h
  | armed s0 =>
      simp only [stopOf, Option.some.injEq] at h
      subst h
      cases side with
      | long =>
          exact ⟨_, rfl, fun _ => le_max_left _ _,
            fun hc => Side.noConfusion hc⟩
      | short =>
          exact ⟨_, rfl, fun hc => Side.noConfusion hc,
            fun _ => min_le_left _ _⟩
  | trailing s0 =>
      simp only [stopOf, Option.some.injEq] at h
      subst h
      cases side with
      | long =>
          exact ⟨_, rfl, fun _ => le_max_left _ _,
            fun hc => Side.noConfusion hc⟩
      | short =>
          exact ⟨_, rfl, fun hc => Side.noConfusion hc,
            fun _ => min_le_left _ _⟩

/-- C4: for a position whose trailing-stop state is armed or trailing, the
stop price is monotone in the favorable direction across any sequence of
monitor ticks: it never decreases for a LONG and never increases for a
SHORT, whatever mark prices are observed. -/
theorem trailing_stop_monotone (side : Side) (cfg : TrailConfig) (entry : ℚ)
    (ts : TrailState) (marks : List ℚ) (stop : ℚ)
    (h : stopOf ts = some stop) :
    ∃ stop2, stopOf (trailingTicks side cfg entry ts marks) = some stop2 ∧
      (side = .long → stop ≤ stop2) ∧ (side = .short → stop2 ≤ stop) := by
  induction marks generalizing ts stop with
  | nil => exact ⟨stop, h, fun _ => le_refl _, fun _ => le_refl _⟩
  | cons m rest ih =>
      obtain ⟨s1, h1, hl1, hs1⟩ :=
        trailingTick_stop_favorable side cfg entry ts m stop h
      obtain ⟨s2, h2, hl2, hs2⟩ := ih (trailingTick side cfg entry ts m) s1 h1
      exact ⟨s2, h2, fun hside => le_trans (hl1 hside) (hl2 hside),
        fun hside => le_trans (hs2 hside) (hs1 hside)⟩

/-- Witness for C4: a LONG armed at stop 101 (activation 9/5 percent,
callback 1 percent, entry 100) keeps a stop at least 101 over the mark
sequence 103, 99, 104. -/
theorem trailing_stop_monotone_witness :
    ∃ stop2, stopOf (trailingTicks .long
        { activation_pct := 9/5, callback_pct := 1 } 100 (.armed 101)
        [103, 99, 104]) = some stop2 ∧
      (Side.long = .long → (101 : ℚ) ≤ stop2) ∧
      (Side.long = .short → stop2 ≤ 101) :=
  trailing_stop_monotone .long { activation_pct := 9/5, callback_pct := 1 }
    100 (.armed 101) [103, 99, 104] 101 rfl

/-- Witness for C10: toggling "ETHUSDT" twice on the selection
["BTCUSDT", "ETHUSDT", "SOLUSDT"] yields the same set of symbols; toggling
it once removes it, and toggling the absent "XRPUSDT" appends it. -/
theorem toggleSymbol_involution_witness :
    (∀ y, y ∈ toggleSymbol
        (toggleSymbol ["BTCUSDT", "ETHUSDT", "SOLUSDT"] "ETHUSDT")
        "ETHUSDT" ↔ y ∈ ["BTCUSDT", "ETHUSDT", "SOLUSDT"]) ∧
    ("XRPUSDT" ∉ ["BTCUSDT", "ETHUSDT", "SOLUSDT"] →
      toggleSymbol ["BTCUSDT", "ETHUSDT", "SOLUSDT"] "XRPUSDT" =
        ["BTCUSDT", "ETHUSDT", "SOLUSDT"] ++ ["XRPUSDT"]) ∧
    ("ETHUSDT" ∈ ["BTCUSDT", "ETHUSDT", "SOLUSDT"] →
      ∀ y, y ∈ toggleSymbol ["BTCUSDT", "ETHUSDT", "SOLUSDT"] "ETHUSDT" ↔
        y ∈ ["BTCUSDT", "ETHUSDT", "SOLUSDT"] ∧ y ≠ "ETHUSDT") :=
  ⟨(toggleSymbol_involution ["BTCUSDT", "ETHUSDT", "SOLUSDT"] "ETHUSDT"
      (by decide)).1,
   (toggleSymbol_involution ["BTCUSDT", "ETHUSDT", "SOLUSDT"] "XRPUSDT"
      (by decide)).2.1,
   (toggleSymbol_involution ["BTCUSDT", "ETHUSDT", "SOLUSDT"] "ETHUSDT"
      (by decide)).2.2⟩

end AlfyBot
